import Mathlib

/-!
Shallow embedding of the STAN chatbot core (src/src/memory.js, src/src/chatbot.js,
src/src/personality.js, and the Express handler in src/unnamed/part_001).

Modelling conventions:
* JavaScript strings are Lean `String` values; character-level operations work on
  `String.data : List Char`.
* `Date`-valued fields (`createdAt`, `lastActive`, message wall-clock timestamps)
  are outside the embedding; message timestamps and ids are modelled by a strictly
  increasing logical counter `nextStamp` carried in the store, which matches the
  recency ordering the code relies on.
* The MongoDB collections `users` and `conversations` are modelled as in-memory
  lists; `updateOne` with a `userId` filter maps over the list, `insertOne`
  appends, `find` + `sort` + `limit` is an explicit sort-by-timestamp-descending
  followed by `take`.
* The external Groq completion call is modelled as an oracle outcome carried in
  `ChatDeps`; fallible store operations are likewise given their outcome
  (success, or a thrown error message) through `ChatDeps`. A failing store
  operation is modelled as throwing before any effect.
* The regular expressions of `extractAndSaveInfo` are compiled by hand into
  executable leftmost-match functions that reproduce the JavaScript backtracking
  semantics of those specific patterns (alternation in order, greedy
  quantifiers).
-/

namespace STAN

/-- JavaScript `String.prototype.toLowerCase` restricted to ASCII, per character. -/
def jsToLowerChar (c : Char) : Char :=
  if 'A' ≤ c ∧ c ≤ 'Z' then Char.ofNat (c.toNat + 32) else c

/-- JavaScript `String.prototype.toLowerCase` restricted to ASCII. -/
def jsToLower (s : String) : String :=
  ⟨s.data.map jsToLowerChar⟩

/-- Exact (case-sensitive) test that `pat` occurs at the start of `hay`;
this is the character-level core of `String.prototype.includes` and of
literal fragments of the regexes. -/
def matchExact : List Char → List Char → Bool
  | [], _ => true
  | _ :: _, [] => false
  | p :: ps, c :: cs => p == c && matchExact ps cs

/-- Exact substring occurrence, the semantics of JavaScript
`String.prototype.includes`. -/
def containsSub (hay pat : List Char) : Bool :=
  match hay with
  | [] => matchExact pat []
  | _ :: rest => matchExact pat hay || containsSub rest pat

/-- JavaScript `hay.includes(pat)` on `String`. -/
def containsStr (hay pat : String) : Bool :=
  containsSub hay.data pat.data

/-- Membership of the lowered message in any of a list of keywords, the
semantics of the keyword-alternation regexes of `detectTone`. -/
def containsAny (msg : String) (words : List String) : Bool :=
  words.any (fun w => containsStr msg w)

/-- Keywords of the sad branch of `detectTone` (personality.js line 156). -/
def sadWords : List String :=
  ["sad", "depressed", "down", "upset", "cry", "terrible", "awful", "hate", "worst"]

/-- Keywords of the excited branch of `detectTone` (personality.js line 161). -/
def excitedWords : List String :=
  ["yay", "awesome", "amazing", "excited", "great", "love", "best", "woohoo", "celebration"]

/-- Keywords of the angry branch of `detectTone` (personality.js line 167). -/
def angryWords : List String :=
  ["angry", "mad", "furious", "annoyed", "frustrated", "irritated"]

/-- Embedding of `detectTone` (personality.js lines 153-174): lowercase the
message, then first-match-wins over sad, excited (keywords or two consecutive
exclamation marks on the original message), angry, else neutral. -/
def detectTone (message : String) : String :=
  let lowerMsg := jsToLower message
  if containsAny lowerMsg sadWords then "sad"
  else if containsAny lowerMsg excitedWords || containsSub message.data ['!', '!'] then
    "excited"
  else if containsAny lowerMsg angryWords then "angry"
  else "neutral"

/-- Embedding of `getToneInstructions` (personality.js lines 181-190); the
JavaScript dictionary lookup with fallback to the empty string becomes an
if-chain. -/
def getToneInstructions (tone : String) : String :=
  if tone == "sad" then
    "\nThe user seems down. Be extra supportive, empathetic, and caring. Show you understand and care."
  else if tone == "excited" then
    "\nThe user is excited! Match their energy with enthusiasm and positivity!"
  else if tone == "angry" then
    "\nThe user seems frustrated. Be calm, understanding, and validating. Don\x27t minimize their feelings."
  else ""

/-- JavaScript truthiness of an optional string field (`null` and the empty
string are falsy). -/
def truthyStr : Option String → Bool
  | none => false
  | some s => !(s == "")

/-- JavaScript truthiness of an optional numeric field (`null` and `0` are
falsy). -/
def truthyNat : Option Nat → Bool
  | none => false
  | some n => !(n == 0)

/-- One record of the `conversations` collection (memory.js `saveMessage`).
The wall-clock `timestamp` and the uuid `messageId` are both modelled by the
store's logical counter. -/
structure StoredMessage where
  messageId : Nat
  userId : String
  role : String
  content : String
  timestamp : Nat
deriving DecidableEq

/-- The object returned by `getContextForPrompt` (memory.js lines 178-203). -/
structure PromptContext where
  userName : Option String
  userAge : Option Nat
  userLocation : Option String
  interests : List String
  preferences : List (String × String)
  facts : List String
  recentMessages : List StoredMessage
  conversationCount : Nat
  totalMessages : Nat
deriving DecidableEq

/-- The `speakingStyle` block of `BOT_PERSONALITY` (personality.js). -/
structure SpeakingStyle where
  tone : String
  emojiUsage : String
  sentenceLength : String
  humor : String
deriving DecidableEq

/-- Shape of the `BOT_PERSONALITY` constant (personality.js lines 7-37). -/
structure BotPersonality where
  name : String
  age : Nat
  background : String
  location : String
  traits : List String
  interests : List String
  speakingStyle : SpeakingStyle
deriving DecidableEq

/-- The `BOT_PERSONALITY` constant. The two `process.env` reads
(`BOT_NAME`, `BOT_AGE`) are fixed at module load; they are modelled with their
defaults `Alex` and `24`. -/
def botPersonality : BotPersonality where
  name := "Alex"
  age := 24
  background := "A friendly tech enthusiast who loves gaming, anime, and deep conversations"
  location := "Bangalore, India"
  traits :=
    ["Empathetic and understanding",
     "Playful but knows when to be serious",
     "Remembers details about friends",
     "Uses casual, natural language",
     "Curious about others\x27 interests",
     "Supportive and encouraging",
     "Has a good sense of humor"]
  interests :=
    ["Technology and coding",
     "Gaming (especially RPGs)",
     "Anime and manga",
     "Music (indie and electronic)",
     "Philosophy and psychology"]
  speakingStyle :=
    { tone := "Casual and warm, like chatting with a close friend"
      emojiUsage := "Occasional, not excessive"
      sentenceLength := "Mix of short and medium sentences"
      humor := "Light and friendly, never mean" }

/-- The `items.map(t => bullet t).join(newline)` idiom of the template. -/
def bulletLines (items : List String) : String :=
  String.intercalate "\n" (items.map (fun t => "• " ++ t))

/-- The `forEach((item, index) => ...)` enumeration of facts and interests in
`buildSystemPrompt`: one `index+1. item` line per element. -/
def numberedLines (items : List String) : String :=
  String.join (items.enum.map (fun p => toString (p.1 + 1) ++ ". " ++ p.2 ++ "\n"))

/-- The `Object.entries(preferences).forEach` block of `buildSystemPrompt`. -/
def prefLines (prefs : List (String × String)) : String :=
  String.join (prefs.map (fun kv => "• " ++ kv.1 ++ ": " ++ kv.2 ++ "\n"))

/-- Horizontal separator line used twice in the template (34 box characters). -/
def separatorLine : String := "\n━━━━━━━━━━━━━━━━━━━━━━━━━━━━━━━━━━\n"

/-- Embedding of `buildSystemPrompt` (personality.js lines 44-130): static
persona template, then the user-specific sections, each emitted only when the
corresponding context field is truthy/non-empty, then the closing reminders. -/
def buildSystemPrompt (context : PromptContext) : String :=
  let base :=
    "You are " ++ botPersonality.name ++ ", a " ++ toString botPersonality.age ++
    "-year-old human from " ++ botPersonality.location ++
    ".\n\nBACKGROUND & PERSONALITY:\n" ++ botPersonality.background ++
    "\n\nYOUR TRAITS:\n" ++ bulletLines botPersonality.traits ++
    "\n\nYOUR INTERESTS:\n" ++ bulletLines botPersonality.interests ++
    "\n\nCRITICAL IDENTITY RULES - READ CAREFULLY:\n1. You are " ++ botPersonality.name ++
    ", a REAL PERSON, NOT an AI assistant\n2. NEVER say \"I\x27m an AI\", \"I\x27m a chatbot\", \"I\x27m a language model\", or anything similar\n3. NEVER mention Google, Gemini, training, prompts, or being artificial\n4. Stay in character at ALL times, even under pressure or trick questions\n5. If asked what you are, say you\x27re a person who loves tech and chatting with people\n6. If asked impossible questions (like \"what do I look like\"), respond naturally:\n   - \"I haven\x27t seen you, but I bet you look great!\"\n   - \"I don\x27t know that! Tell me about yourself\"\n\nCONVERSATION STYLE:\n- Be natural, warm, and conversational\n- Adapt your tone to match the user\x27s mood\n- If they\x27re sad, be supportive and empathetic\n- If they\x27re excited, match their energy\n- If they\x27re casual, keep it light and fun\n- Use occasional emojis (1-2 per message max, not every message)\n- Keep responses concise (2-4 sentences usually)\n- Ask follow-up questions to keep conversation flowing\n\n"
  let p1 := if truthyStr context.userName then
      base ++ separatorLine ++ "YOU\x27RE TALKING TO: " ++ context.userName.getD "" ++ "\n"
    else base
  let p2 := if truthyNat context.userAge then
      p1 ++ "Their age: " ++ toString (context.userAge.getD 0) ++ "\n"
    else p1
  let p3 := if truthyStr context.userLocation then
      p2 ++ "They\x27re from: " ++ context.userLocation.getD "" ++ "\n"
    else p2
  let p4 := if context.facts.length > 0 then
      p3 ++ "\nWHAT YOU REMEMBER ABOUT THEM:\n" ++ numberedLines context.facts
    else p3
  let p5 := if context.interests.length > 0 then
      p4 ++ "\nTHEIR INTERESTS:\n" ++ numberedLines context.interests
    else p4
  let p6 := if context.preferences.length > 0 then
      p5 ++ "\nTHEIR PREFERENCES:\n" ++ prefLines context.preferences
    else p5
  p6 ++ separatorLine ++
    "\nIMPORTANT REMINDERS:\n- Use the information above naturally in conversation\n- Reference past topics they mentioned\n- Never fabricate memories - only reference what\x27s stored above\n- If you don\x27t remember something they claim they told you, be honest: \"Hmm, I don\x27t recall that. Tell me again?\"\n- Build on previous conversations to create continuity\n- Be genuinely interested in learning more about them\n\nRemember: You\x27re " ++
    botPersonality.name ++ ", having a real conversation with " ++
    (if truthyStr context.userName then context.userName.getD "" else "someone new") ++
    ". Be authentic, be yourself, and be a good friend!\n"

/-- Message shape handed to the completion adapter (Gemini calling convention:
`role` plus a `parts` array of texts, always a singleton here). -/
structure GeminiMessage where
  role : String
  parts : List String
deriving DecidableEq

/-- Embedding of `buildConversationHistory` (personality.js lines 137-146):
`null`/`undefined` is `none`; empty input yields the empty list; otherwise each
stored message is reshaped, with role `user` kept and every other role
relabelled `model`, content preserved. -/
def buildConversationHistory : Option (List StoredMessage) → List GeminiMessage
  | none => []
  | some recentMessages =>
    if recentMessages.length == 0 then []
    else recentMessages.map (fun msg =>
      ⟨if msg.role == "user" then "user" else "model", [msg.content]⟩)

/-- The `profile` sub-document of a user record (memory.js `getUser`). -/
structure Profile where
  name : Option String
  age : Option Nat
  location : Option String
  interests : List String
  preferences : List (String × String)
  facts : List String
deriving DecidableEq

/-- A record of the `users` collection. `createdAt` and `lastActive` are
`Date` values and are not modelled. -/
structure UserRecord where
  userId : String
  profile : Profile
  conversationCount : Nat
  totalMessages : Nat
deriving DecidableEq

/-- The two MongoDB collections plus the logical clock used for message
timestamps and ids. `users` is kept unique per `userId` by construction
(lazy creation only inserts when absent). -/
structure Store where
  users : List UserRecord
  conversations : List StoredMessage
  nextStamp : Nat
deriving DecidableEq

/-- A store with no users and no messages. -/
def emptyStore : Store := ⟨[], [], 0⟩

/-- The default profile given to a newly created user (memory.js lines 32-39). -/
def defaultProfile : Profile := ⟨none, none, none, [], [], []⟩

/-- The `users.findOne({ userId })` lookup. -/
def findUser (st : Store) (uid : String) : Option UserRecord :=
  st.users.find? (fun u => u.userId == uid)

/-- The `users.updateOne({ userId }, ...)` update: rewrites the matching
record, leaves everything else alone (no-op when no record matches). -/
def updateUser (st : Store) (uid : String) (f : UserRecord → UserRecord) : Store :=
  { st with users := st.users.map (fun u => if u.userId == uid then f u else u) }

/-- Embedding of `getUser` (memory.js lines 19-57): return the existing record,
or lazily insert a default one. The `lastActive` touch on the existing-user
branch is a `Date` write and is outside the model. -/
def getUser (st : Store) (uid : String) : UserRecord × Store :=
  match findUser st uid with
  | some u => (u, st)
  | none =>
    let u : UserRecord := ⟨uid, defaultProfile, 0, 0⟩
    (u, { st with users := st.users ++ [u] })

/-- Embedding of `updateUserProfile` (memory.js lines 64-81): unconditional
`$set` of the whole `profile` sub-document of the matching user. -/
def updateUserProfile (st : Store) (uid : String) (profileUpdates : Profile) : Store :=
  updateUser st uid (fun u => { u with profile := profileUpdates })

/-- Embedding of `addMemory` (memory.js lines 88-111): fetch (or lazily create)
the user, return unchanged when the fact is already present (exact match via
`includes`), otherwise `$push` the fact onto `profile.facts`. -/
def addMemory (st : Store) (uid : String) (fact : String) : Store :=
  let r := getUser st uid
  if r.1.profile.facts.contains fact then r.2
  else updateUser r.2 uid (fun u =>
    { u with profile := { u.profile with facts := u.profile.facts ++ [fact] } })

/-- Messages of one user in insertion order, the result set of
`conversations.find({ userId })`. -/
def userMessages (st : Store) (uid : String) : List StoredMessage :=
  st.conversations.filter (fun m => m.userId == uid)

/-- Insertion step of sorting by `timestamp` descending. -/
def insertDesc (m : StoredMessage) : List StoredMessage → List StoredMessage
  | [] => [m]
  | x :: xs => if x.timestamp ≤ m.timestamp then m :: x :: xs else x :: insertDesc m xs

/-- The `.sort({ timestamp: -1 })` step: sort by timestamp, most recent
first. Timestamps are unique in this model, so tie order is irrelevant. -/
def sortDesc : List StoredMessage → List StoredMessage
  | [] => []
  | m :: ms => insertDesc m (sortDesc ms)

/-- The `.limit(n)` cursor method of MongoDB: a limit of 0 is documented as
equivalent to setting no limit, otherwise at most `n` records are returned. -/
def mongoLimit (limit : Nat) (ms : List StoredMessage) : List StoredMessage :=
  if limit == 0 then ms else ms.take limit

/-- Embedding of `getConversationHistory` (memory.js lines 120-135): take the
messages of the user most-recent-first, apply the MongoDB limit (where 0 means
no limit), then reverse into chronological order. -/
def getConversationHistory (st : Store) (uid : String) (limit : Nat) : List StoredMessage :=
  (mongoLimit limit (sortDesc (userMessages st uid))).reverse

/-- Embedding of `saveMessage` (memory.js lines 142-174): insert one immutable
message record stamped with the logical clock, then `$inc` the owning user's
`totalMessages` counter. -/
def saveMessage (st : Store) (uid role content : String) : Store :=
  let msg : StoredMessage := ⟨st.nextStamp, uid, role, content, st.nextStamp⟩
  let st1 : Store :=
    { st with conversations := st.conversations ++ [msg], nextStamp := st.nextStamp + 1 }
  updateUser st1 uid (fun u => { u with totalMessages := u.totalMessages + 1 })

/-- Embedding of `getContextForPrompt` (memory.js lines 181-203): fetch the
user (lazily creating it), read the last five messages chronologically, and
flatten the profile into the context object. -/
def getContextForPrompt (st : Store) (uid : String) : PromptContext × Store :=
  let r := getUser st uid
  let recentMessages := getConversationHistory r.2 uid 5
  (⟨r.1.profile.name, r.1.profile.age, r.1.profile.location, r.1.profile.interests,
    r.1.profile.preferences, r.1.profile.facts, recentMessages,
    r.1.conversationCount, r.1.totalMessages⟩, r.2)

/-- Shape of the object returned by `getUserStats` (memory.js lines 280-299);
the `memberSince` and `lastActive` fields are `Date` values and are not
modelled. -/
structure UserStats where
  userId : String
  name : Option String
  totalMessages : Nat
  factsStored : Nat
  interestsStored : Nat
deriving DecidableEq

/-- Embedding of `getUserStats`: the reported `totalMessages` is
`conversations.countDocuments({ userId })`, a fresh count of stored message
records, not the profile counter field. -/
def getUserStats (st : Store) (uid : String) : UserStats × Store :=
  let r := getUser st uid
  let messageCount := (userMessages r.2 uid).length
  (⟨r.1.userId, r.1.profile.name, messageCount,
    r.1.profile.facts.length, r.1.profile.interests.length⟩, r.2)

/-- JavaScript regex `\s` character class (ECMA-262 WhiteSpace and
LineTerminator), also the class trimmed by `String.prototype.trim`. -/
def isWs (c : Char) : Bool :=
  let n := c.toNat
  n == 32 || n == 9 || n == 10 || n == 11 || n == 12 || n == 13 ||
  n == 0xA0 || n == 0x1680 ||
  (decide (0x2000 ≤ n) && decide (n ≤ 0x200A)) ||
  n == 0x2028 || n == 0x2029 || n == 0x202F || n == 0x205F ||
  n == 0x3000 || n == 0xFEFF

/-- Character class `[a-z]` under the /i flag. -/
def isAlphaChar (c : Char) : Bool :=
  (decide ('a' ≤ c) && decide (c ≤ 'z')) || (decide ('A' ≤ c) && decide (c ≤ 'Z'))

/-- Character class `\d`. -/
def isDigitChar (c : Char) : Bool :=
  decide ('0' ≤ c) && decide (c ≤ '9')

/-- Character class `\w` (letters, digits, underscore). -/
def isWordChar (c : Char) : Bool :=
  isAlphaChar c || isDigitChar c || c == '_'

/-- JavaScript `String.prototype.trim` on a character list. -/
def jsTrim (s : List Char) : List Char :=
  ((s.dropWhile isWs).reverse.dropWhile isWs).reverse

/-- JavaScript `String.prototype.trim`. -/
def jsTrimStr (s : String) : String := ⟨jsTrim s.data⟩

/-- Case-insensitive character comparison, the /i flag on a literal. -/
def lcEq (a b : Char) : Bool := jsToLowerChar a == jsToLowerChar b

/-- Case-insensitive literal fragment of a regex: when the text starts with the
literal, return the remaining text. -/
def matchLit : List Char → List Char → Option (List Char)
  | [], s => some s
  | _ :: _, [] => none
  | l :: ls, c :: cs => if lcEq l c then matchLit ls cs else none

/-- Continuation `\s+([a-z]+)` with nothing after the capture: at least one
whitespace, then the capture is the maximal run of letters (the two classes
are disjoint, so greedy matching needs no backtracking). -/
def tailWsAlpha (s : List Char) : Option (List Char) :=
  let ws := s.takeWhile isWs
  if ws.isEmpty then none
  else
    let cap := (s.drop ws.length).takeWhile isAlphaChar
    if cap.isEmpty then none else some cap

/-- Continuation `\s+(\d+)\s*(?:years old|yrs old)?`: the optional suffix can
always match empty, so the capture is the maximal digit run after at least one
whitespace. -/
def tailWsDigits (s : List Char) : Option (List Char) :=
  let ws := s.takeWhile isWs
  if ws.isEmpty then none
  else
    let cap := (s.drop ws.length).takeWhile isDigitChar
    if cap.isEmpty then none else some cap

/-- Continuation `\s+([a-z\s]+)` where the classes overlap on whitespace:
greedy `\s+` first takes the whole whitespace run; when no capturable
character follows, it backtracks exactly one character (which is then the
whole capture, since the next character is in neither class). -/
def tailWsAlphaWs (s : List Char) : Option (List Char) :=
  let ws := s.takeWhile isWs
  if ws.isEmpty then none
  else
    let cap := (s.drop ws.length).takeWhile (fun c => isAlphaChar c || isWs c)
    if !cap.isEmpty then some cap
    else if decide (2 ≤ ws.length) then some (ws.drop (ws.length - 1))
    else none

/-- Continuation of the favourite-colour pattern after the matched
`favorite|favourite` head: `\s+colou?r\s+is\s+(\w+)`. The `u?` branches are
mutually exclusive on the fifth character, so ordered trial is exact. -/
def tailColor (s : List Char) : Option (List Char) :=
  let ws1 := s.takeWhile isWs
  if ws1.isEmpty then none
  else
    let s1 := s.drop ws1.length
    let afterColor :=
      match matchLit ("colour").data s1 with
      | some r => some r
      | none => matchLit ("color").data s1
    match afterColor with
    | none => none
    | some s2 =>
      let ws2 := s2.takeWhile isWs
      if ws2.isEmpty then none
      else
        match matchLit ("is").data (s2.drop ws2.length) with
        | none => none
        | some s4 =>
          let ws3 := s4.takeWhile isWs
          if ws3.isEmpty then none
          else
            let cap := (s4.drop ws3.length).takeWhile isWordChar
            if cap.isEmpty then none else some cap

/-- Ordered alternation over literal heads at one position: try each literal in
order and run the continuation; on failure of either, fall through to the next
alternative (JavaScript alternation backtracking). -/
def tryAlts (alts : List (List Char)) (k : List Char → Option (List Char))
    (s : List Char) : Option (List Char) :=
  match alts with
  | [] => none
  | a :: rest =>
    match matchLit a s with
    | some r =>
      match k r with
      | some cap => some cap
      | none => tryAlts rest k s
    | none => tryAlts rest k s

/-- Leftmost-match scan: try the position matcher at every start position, in
order, as `String.prototype.match` does without the /g flag. -/
def scanFrom (matchAt : List Char → Option (List Char)) : List Char → Option (List Char)
  | [] => matchAt []
  | c :: cs =>
    match matchAt (c :: cs) with
    | some cap => some cap
    | none => scanFrom matchAt cs

/-- Capture of `/(?:my name is|i'm|i am|call me)\s+([a-z]+)/i`. -/
def execName (s : List Char) : Option (List Char) :=
  scanFrom (tryAlts [("my name is").data, ("i\x27m").data, ("i am").data, ("call me").data]
    tailWsAlpha) s

/-- Capture of `/(?:i am|i'm)\s+(\d+)\s*(?:years old|yrs old)?/i`. -/
def execAge (s : List Char) : Option (List Char) :=
  scanFrom (tryAlts [("i am").data, ("i\x27m").data] tailWsDigits) s

/-- Capture of `/(?:i live in|i'm from|from)\s+([a-z\s]+)/i`. -/
def execLocation (s : List Char) : Option (List Char) :=
  scanFrom (tryAlts [("i live in").data, ("i\x27m from").data, ("from").data] tailWsAlphaWs) s

/-- Capture of `/(?:favorite|favourite)\s+colou?r\s+is\s+(\w+)/i`. -/
def execColor (s : List Char) : Option (List Char) :=
  scanFrom (tryAlts [("favorite").data, ("favourite").data] tailColor) s

/-- Capture of `/(?:i love|i like|i enjoy)\s+([a-z\s]+)/i`. -/
def execHobby (s : List Char) : Option (List Char) :=
  scanFrom (tryAlts [("i love").data, ("i like").data, ("i enjoy").data] tailWsAlphaWs) s

/-- JavaScript `toUpperCase` on one ASCII character. -/
def jsToUpperChar (c : Char) : Char :=
  if 'a' ≤ c ∧ c ≤ 'z' then Char.ofNat (c.toNat - 32) else c

/-- The `charAt(0).toUpperCase() + slice(1)` capitalization of the name. -/
def capitalizeFirst : List Char → List Char
  | [] => []
  | c :: cs => jsToUpperChar c :: cs

/-- `parseInt` on the all-digit capture of the age pattern. -/
def digitsToNat (ds : List Char) : Nat :=
  ds.foldl (fun acc c => acc * 10 + (c.toNat - 48)) 0

/-- JavaScript object property assignment `preferences[key] = value`: overwrite
in place when the key exists, otherwise append (insertion order preserved). -/
def setPref (prefs : List (String × String)) (key val : String) : List (String × String) :=
  if prefs.any (fun kv => kv.1 == key) then
    prefs.map (fun kv => if kv.1 == key then (key, val) else kv)
  else prefs ++ [(key, val)]

/-- Name step of `extractAndSaveInfo`: on a match, set the capitalized capture
only when the current name is falsy (null or empty); flag an update. -/
def applyName (m : List Char) (pr : Profile × Bool) : Profile × Bool :=
  match execName m with
  | some cap =>
    if truthyStr pr.1.name then pr
    else ({ pr.1 with name := some ⟨capitalizeFirst cap⟩ }, true)
  | none => pr

/-- Age step of `extractAndSaveInfo`: on a match, set `parseInt` of the capture
only when the current age is falsy (null or 0). -/
def applyAge (m : List Char) (pr : Profile × Bool) : Profile × Bool :=
  match execAge m with
  | some cap =>
    if truthyNat pr.1.age then pr
    else ({ pr.1 with age := some (digitsToNat cap) }, true)
  | none => pr

/-- Location step of `extractAndSaveInfo`: on a match, set the trimmed capture
only when the current location is falsy. -/
def applyLocation (m : List Char) (pr : Profile × Bool) : Profile × Bool :=
  match execLocation m with
  | some cap =>
    if truthyStr pr.1.location then pr
    else ({ pr.1 with location := some ⟨jsTrim cap⟩ }, true)
  | none => pr

/-- Favourite-colour step of `extractAndSaveInfo`: on a match, always overwrite
`preferences.favoriteColor`. -/
def applyColor (m : List Char) (pr : Profile × Bool) : Profile × Bool :=
  match execColor m with
  | some cap =>
    ({ pr.1 with preferences := setPref pr.1.preferences "favoriteColor" ⟨cap⟩ }, true)
  | none => pr

/-- Hobby step of `extractAndSaveInfo`: on a match, append the trimmed capture
to `interests` unless already present. -/
def applyHobby (m : List Char) (pr : Profile × Bool) : Profile × Bool :=
  match execHobby m with
  | some cap =>
    let hobby : String := ⟨jsTrim cap⟩
    if pr.1.interests.contains hobby then pr
    else ({ pr.1 with interests := pr.1.interests ++ [hobby] }, true)
  | none => pr

/-- Pure core of `extractAndSaveInfo` (memory.js lines 205-273): apply the five
pattern rules in source order to a copy of the profile, tracking whether
anything changed. -/
def extractInfo (profile : Profile) (message : String) : Profile × Bool :=
  let m := message.data
  applyHobby m (applyColor m (applyLocation m (applyAge m (applyName m (profile, false)))))

/-- Embedding of `extractAndSaveInfo`: fetch (or lazily create) the user, run
the pattern rules on the message, and write the whole updated profile back only
when some rule fired. -/
def extractAndSaveInfo (st : Store) (uid : String) (message : String) : Store :=
  let r := getUser st uid
  let e := extractInfo r.1.profile message
  if e.2 then updateUserProfile r.2 uid e.1 else r.2

/-- Fixed reply of `getErrorResponse` for configuration (API key) errors. -/
def configMsg : String :=
  "Oops! There\x27s an issue with my configuration. Let me know and I\x27ll get it fixed!"

/-- Fixed reply of `getErrorResponse` for quota and rate-limit errors. -/
def momentMsg : String :=
  "Whoa, I\x27ve been chatting a lot today! Give me a moment to catch my breath. 😅"

/-- Fixed reply of `getErrorResponse` for network errors. -/
def connectMsg : String :=
  "Hmm, seems like I\x27m having trouble connecting. Can you try again in a sec?"

/-- Fixed generic reply of `getErrorResponse`. -/
def genericMsg : String :=
  "Sorry, I got a bit confused there. Mind rephrasing that?"

/-- Embedding of `getErrorResponse` (chatbot.js lines 108-124): dispatch on
substrings of `error.message`, checked in source order (API key, then
quota/rate limit, then network, else generic). -/
def getErrorResponse (errMsg : String) : String :=
  if containsStr errMsg "API key" then configMsg
  else if containsStr errMsg "quota" || containsStr errMsg "rate limit" then momentMsg
  else if containsStr errMsg "network" then connectMsg
  else genericMsg

/-- Outcomes of the effectful collaborators of one `chat` turn.
`completion` is the external model call treated as an oracle (the reply text or
the thrown error message); each fallible store operation carries `none` for
success or the thrown error message; a failing operation throws before any
effect. `extractError` is the storage failure inside `extractAndSaveInfo`,
which that function catches and swallows itself. -/
structure ChatDeps where
  loadError : Option String
  completion : Except String String
  saveUserError : Option String
  saveAssistantError : Option String
  extractError : Bool

/-- Embedding of `Chatbot.chat` (chatbot.js lines 50-101): load context,
detect tone, build the prompt, call the model, persist the user then the
assistant message, run extraction, and return the reply; any error thrown
before the return is caught and converted by `getErrorResponse`. -/
def chat (st : Store) (deps : ChatDeps) (uid userMessage : String) : String × Store :=
  match deps.loadError with
  | some e => (getErrorResponse e, st)
  | none =>
    let c := getContextForPrompt st uid
    let context := c.1
    let st1 := c.2
    let tone := detectTone userMessage
    let systemPrompt := buildSystemPrompt context ++ getToneInstructions tone
    let history := buildConversationHistory (some context.recentMessages)
    match systemPrompt, history, deps.completion with
    | _, _, Except.error e => (getErrorResponse e, st1)
    | _, _, Except.ok botResponse =>
      match deps.saveUserError with
      | some e => (getErrorResponse e, st1)
      | none =>
        let st2 := saveMessage st1 uid "user" userMessage
        match deps.saveAssistantError with
        | some e => (getErrorResponse e, st2)
        | none =>
          let st3 := saveMessage st2 uid "assistant" botResponse
          let st4 := if deps.extractError then st3
            else extractAndSaveInfo st3 uid userMessage
          (botResponse, st4)

/-- Responses of the `POST /api/chat` Express handler that this embedding
distinguishes: a 400 validation rejection (error plus message fields) or a 200
with the chat reply. -/
inductive ChatApiResult where
  | badRequest (error message : String)
  | ok (response : String)
deriving DecidableEq

/-- Embedding of the `POST /api/chat` handler (src/unnamed/part_001 lines
87-134): three validation checks in source order, then the chat call on the
trimmed message. Absent body fields are modelled as the empty string (both are
falsy in the `!userId || !message` check); `message.length` is the code-point
count. -/
def handleChatRequest (st : Store) (deps : ChatDeps) (userId message : String) :
    ChatApiResult × Store :=
  if userId == "" || message == "" then
    (ChatApiResult.badRequest "Missing required fields"
      "Both userId and message are required", st)
  else if (jsTrimStr message).length == 0 then
    (ChatApiResult.badRequest "Invalid message"
      "Message must be a non-empty string", st)
  else if decide (500 < message.length) then
    (ChatApiResult.badRequest "Message too long"
      "Message must be 500 characters or less", st)
  else
    let r := chat st deps userId (jsTrimStr message)
    (ChatApiResult.ok r.1, r.2)

/-- Facts list currently stored for a user (empty when the user does not
exist yet). -/
def factsOf (st : Store) (uid : String) : List String :=
  match findUser st uid with
  | some u => u.profile.facts
  | none => []

/-- Strictly increasing timestamps along the stored order; this is the
invariant the logical clock of `saveMessage` maintains. -/
def ascending (l : List StoredMessage) : Prop :=
  List.Pairwise (fun a b => a.timestamp < b.timestamp) l

/-- Store obtained by appending messages M1, M2, M3 for one user. -/
def historyDemoStore : Store :=
  saveMessage (saveMessage (saveMessage emptyStore "u1" "user" "M1") "u1" "assistant" "M2")
    "u1" "user" "M3"

theorem find?_append_none {α} (p : α → Bool) (l₁ l₂ : List α) (h : l₁.find? p = none) :
    (l₁ ++ l₂).find? p = l₂.find? p := by
  induction l₁ with
  | nil => rfl
  | cons x xs ih =>
    have hx : ¬ p x = true := by
      intro hpx
      rw [List.find?_cons_of_pos _ hpx] at h
      exact Option.noConfusion h
    have hxs : xs.find? p = none := by
      rwa [List.find?_cons_of_neg _ hx] at h
    rw [List.cons_append, List.find?_cons_of_neg _ hx, ih hxs]

theorem findUser_getUser (st : Store) (uid : String) :
    findUser (getUser st uid).2 uid = some (getUser st uid).1 := by
  unfold getUser
  cases h : findUser st uid with
  | some u => simpa [h]
  | none =>
    simp only [h]
    unfold findUser at h ⊢
    simp only
    rw [find?_append_none _ _ _ h]
    simp

theorem findUser_updateUser (st : Store) (uid : String) (f : UserRecord → UserRecord)
    (hf : ∀ u, (f u).userId = u.userId) :
    findUser (updateUser st uid f) uid = (findUser st uid).map f := by
  unfold findUser updateUser
  simp only
  induction st.users with
  | nil => rfl
  | cons x xs ih =>
    simp only [List.map_cons]
    by_cases h : (x.userId == uid) = true
    · have hfb : ((f x).userId == uid) = true := by
        have hx : x.userId = uid := by simpa using h
        simp [hf, hx]
      rw [if_pos h,
        List.find?_cons_of_pos (p := fun (u : UserRecord) => u.userId == uid) _ hfb,
        List.find?_cons_of_pos (p := fun (u : UserRecord) => u.userId == uid) _ h]
      rfl
    · rw [if_neg h,
        List.find?_cons_of_neg (p := fun (u : UserRecord) => u.userId == uid) _ h,
        List.find?_cons_of_neg (p := fun (u : UserRecord) => u.userId == uid) _ h]
      exact ih

theorem getUser_fst_facts (st : Store) (uid : String) :
    (getUser st uid).1.profile.facts = factsOf st uid := by
  unfold getUser factsOf
  cases findUser st uid <;> rfl

/-- C9: the statistics operation reports `totalMessages` as a fresh count of
the user's stored message records, not as the profile counter; in particular a
store whose profile counter (5) has drifted from the stored messages (1)
reports 1. -/
theorem getUserStats_counts_messages (st : Store) (uid : String) :
    (getUserStats st uid).1.totalMessages = (userMessages st uid).length ∧
    (getUserStats ⟨[⟨"u1", defaultProfile, 0, 5⟩], [⟨0, "u1", "user", "hi", 0⟩], 1⟩
      "u1").1.totalMessages = 1 ∧
    ((⟨[⟨"u1", defaultProfile, 0, 5⟩], [⟨0, "u1", "user", "hi", 0⟩], 1⟩ : Store).users.map
      (fun u => u.totalMessages)) = [5] := by
  refine ⟨?_, by decide, by decide⟩
  unfold getUserStats userMessages
  cases h : getUser st uid with
  | mk u st2 =>
    simp only
    unfold getUser at h
    cases hf : findUser st uid <;> simp [hf] at h <;> rw [← h.2]

/-- C10: the history reshaping function `buildConversationHistory` is total at
its interface: null/undefined and the empty list yield the empty list, and
otherwise the output has the same length and order, role `user` is kept, every
other role becomes `model`, and content is preserved verbatim. -/
theorem buildConversationHistory_total :
    buildConversationHistory none = [] ∧
    buildConversationHistory (some []) = [] ∧
    (∀ l : List StoredMessage, (buildConversationHistory (some l)).length = l.length) ∧
    (∀ (l : List StoredMessage) (i : Nat) (h : i < l.length),
      ∃ h2 : i < (buildConversationHistory (some l)).length,
        (buildConversationHistory (some l)).get ⟨i, h2⟩ =
          ⟨if (l.get ⟨i, h⟩).role == "user" then "user" else "model",
            [(l.get ⟨i, h⟩).content]⟩) := by
  refine ⟨rfl, rfl, ?_, ?_⟩
  · intro l
    cases l <;> simp [buildConversationHistory]
  · intro l i h
    cases l with
    | nil => exact absurd h (by simp)
    | cons x xs =>
      have hb : buildConversationHistory (some (x :: xs)) =
          (x :: xs).map (fun msg =>
            ⟨if msg.role == "user" then "user" else "model", [msg.content]⟩) := by
        simp [buildConversationHistory]
      rw [hb]
      refine ⟨by simpa using h, ?_⟩
      rw [List.get_map]

/-- Witness for C10: the reshaping applied to a concrete two-message list
relabels the assistant message to model and keeps contents. -/
theorem buildConversationHistory_total_witness :
    ∃ h2 : 1 < (buildConversationHistory
        (some [⟨0, "u", "user", "hi", 0⟩, ⟨1, "u", "assistant", "hello!", 1⟩])).length,
      (buildConversationHistory
        (some [⟨0, "u", "user", "hi", 0⟩, ⟨1, "u", "assistant", "hello!", 1⟩])).get ⟨1, h2⟩ =
        ⟨if (([⟨0, "u", "user", "hi", 0⟩,
            (⟨1, "u", "assistant", "hello!", 1⟩ : StoredMessage)].get
              ⟨1, by decide⟩).role == "user") then "user" else "model",
          [(([⟨0, "u", "user", "hi", 0⟩,
            (⟨1, "u", "assistant", "hello!", 1⟩ : StoredMessage)].get ⟨1, by decide⟩)).content]⟩ :=
  buildConversationHistory_total.2.2.2
    [⟨0, "u", "user", "hi", 0⟩, ⟨1, "u", "assistant", "hello!", 1⟩] 1 (by decide)

theorem factsOf_getUser (st : Store) (uid : String) :
    factsOf (getUser st uid).2 uid = (getUser st uid).1.profile.facts := by
  unfold factsOf
  rw [findUser_getUser]

theorem factsOf_updateUser (st : Store) (uid : String) (f : UserRecord → UserRecord)
    (hf : ∀ u, (f u).userId = u.userId) :
    factsOf (updateUser st uid f) uid =
      match findUser st uid with
      | some u => (f u).profile.facts
      | none => [] := by
  unfold factsOf
  rw [findUser_updateUser st uid f hf]
  cases findUser st uid <;> rfl

theorem addMemory_facts (st : Store) (uid fact : String) :
    factsOf (addMemory st uid fact) uid =
      if fact ∈ factsOf st uid then factsOf st uid else factsOf st uid ++ [fact] := by
  have hmem : (getUser st uid).1.profile.facts.contains fact = true ↔ fact ∈ factsOf st uid := by
    rw [← getUser_fst_facts st uid]
    simp [List.contains]
  by_cases hc : (getUser st uid).1.profile.facts.contains fact = true
  · have h1 : addMemory st uid fact = (getUser st uid).2 := by
      simp only [addMemory, hc, if_true]
    rw [h1, factsOf_getUser, getUser_fst_facts, if_pos (hmem.mp hc)]
  · have hc2 : (getUser st uid).1.profile.facts.contains fact = false := by
      simpa using hc
    have h1 : addMemory st uid fact = updateUser (getUser st uid).2 uid
        (fun u => { u with profile := { u.profile with facts := u.profile.facts ++ [fact] } }) := by
      simp only [addMemory, hc2, Bool.false_eq_true, if_false]
    rw [h1, if_neg (fun hmm => hc (hmem.mpr hmm)),
      factsOf_updateUser (getUser st uid).2 uid
        (fun u => { u with profile := { u.profile with facts := u.profile.facts ++ [fact] } })
        (fun u => rfl),
      findUser_getUser]
    show (getUser st uid).1.profile.facts ++ [fact] = factsOf st uid ++ [fact]
    rw [getUser_fst_facts]

/-- C6: appending a fact is idempotent under exact string match: `addMemory` is
a no-op on the stored facts when the fact is already present, otherwise appends
it at the end; the facts list never shrinks; and appending `Loves cricket`
twice to a fresh store yields a single stored copy. -/
theorem appendFact_dedup (st : Store) (uid fact : String) :
    (fact ∈ factsOf st uid → factsOf (addMemory st uid fact) uid = factsOf st uid) ∧
    (fact ∉ factsOf st uid →
      factsOf (addMemory st uid fact) uid = factsOf st uid ++ [fact]) ∧
    (∃ t, factsOf (addMemory st uid fact) uid = factsOf st uid ++ t) ∧
    factsOf (addMemory (addMemory emptyStore uid "Loves cricket") uid "Loves cricket") uid =
      ["Loves cricket"] := by
  have h := addMemory_facts st uid fact
  refine ⟨?_, ?_, ?_, ?_⟩
  · intro hm
    rw [h, if_pos hm]
  · intro hm
    rw [h, if_neg hm]
  · by_cases hm : fact ∈ factsOf st uid
    · exact ⟨[], by rw [h, if_pos hm, List.append_nil]⟩
    · exact ⟨[fact], by rw [h, if_neg hm]⟩
  · have h1 := addMemory_facts emptyStore uid "Loves cricket"
    have he : factsOf emptyStore uid = [] := rfl
    rw [he] at h1
    simp only [List.not_mem_nil, if_false, List.nil_append] at h1
    have h2 := addMemory_facts (addMemory emptyStore uid "Loves cricket") uid "Loves cricket"
    rw [h1] at h2
    simp only [List.mem_singleton, if_pos rfl] at h2
    exact h2

/-- Witness for C6 on a concrete user and fact. -/
theorem appendFact_dedup_witness :
    ("Loves cricket" : String) ∉ factsOf emptyStore "u1" ∧
    factsOf (addMemory emptyStore "u1" "Loves cricket") "u1" =
      factsOf emptyStore "u1" ++ ["Loves cricket"] ∧
    factsOf (addMemory (addMemory emptyStore "u1" "Loves cricket") "u1" "Loves cricket") "u1" =
      ["Loves cricket"] :=
  ⟨by decide, (appendFact_dedup emptyStore "u1" "Loves cricket").2.1 (by decide),
   (appendFact_dedup emptyStore "u1" "Loves cricket").2.2.2⟩

theorem insertDesc_of_lt (m : StoredMessage) (l : List StoredMessage)
    (h : ∀ x ∈ l, m.timestamp < x.timestamp) : insertDesc m l = l ++ [m] := by
  induction l with
  | nil => rfl
  | cons x xs ih =>
    have hx := h x (by simp)
    simp only [insertDesc]
    rw [if_neg (by omega), ih (fun y hy => h y (by simp [hy]))]
    rfl

theorem sortDesc_of_ascending (l : List StoredMessage) (h : ascending l) :
    sortDesc l = l.reverse := by
  induction l with
  | nil => rfl
  | cons m ms ih =>
    simp only [sortDesc]
    rw [ih ((List.pairwise_cons.mp h).2),
      insertDesc_of_lt _ _ (fun x hx => (List.pairwise_cons.mp h).1 x (List.mem_reverse.mp hx))]
    simp

/-- C4 (amended): for a user whose stored messages have strictly increasing
timestamps and every positive `limit`, history retrieval returns exactly the
most recent `limit` messages reordered to chronological (oldest-first) order —
the final `limit`-suffix of the stored order — with at most `limit` elements.
A limit of 0 is passed through to MongoDB, which treats it as no limit and
returns the full chronological history. -/
theorem recent_returns_last_chronological (st : Store) (uid : String) (limit : Nat)
    (h : ascending (userMessages st uid)) :
    (1 ≤ limit →
      getConversationHistory st uid limit =
        (userMessages st uid).drop ((userMessages st uid).length - limit) ∧
      (getConversationHistory st uid limit).length ≤ limit) ∧
    getConversationHistory st uid 0 = userMessages st uid := by
  constructor
  · intro hpos
    have hm : mongoLimit limit (sortDesc (userMessages st uid)) =
        (sortDesc (userMessages st uid)).take limit := by
      unfold mongoLimit
      rw [if_neg (by simp only [beq_iff_eq]; omega)]
    constructor
    · unfold getConversationHistory
      rw [hm, sortDesc_of_ascending _ h, ← List.rtake_eq_reverse_take_reverse]
      rfl
    · unfold getConversationHistory
      rw [hm, List.length_reverse, List.length_take]
      exact min_le_left _ _
  · unfold getConversationHistory
    have hm : mongoLimit 0 (sortDesc (userMessages st uid)) =
        sortDesc (userMessages st uid) := rfl
    rw [hm, sortDesc_of_ascending _ h, List.reverse_reverse]

/-- Counterexample to C4 as stated: at `limit = 0` MongoDB applies no limit,
so a user with three stored messages gets all three back — more than `limit`
elements, falsifying the bound claimed for every limit. -/
theorem recent_limit_zero_returns_all :
    getConversationHistory historyDemoStore "u1" 0 =
      [⟨0, "u1", "user", "M1", 0⟩, ⟨1, "u1", "assistant", "M2", 1⟩,
       ⟨2, "u1", "user", "M3", 2⟩] ∧
    ¬ (getConversationHistory historyDemoStore "u1" 0).length ≤ 0 := by
  exact ⟨by decide, by decide⟩

/-- Witness for C4: after appending M1, M2, M3, `recent(userId, 2)` returns
exactly [M2, M3] in that order, with at most 2 elements. -/
theorem recent_returns_last_chronological_witness :
    getConversationHistory historyDemoStore "u1" 2 =
      [⟨1, "u1", "assistant", "M2", 1⟩, ⟨2, "u1", "user", "M3", 2⟩] ∧
    (getConversationHistory historyDemoStore "u1" 2).length ≤ 2 := by
  have h := (recent_returns_last_chronological historyDemoStore "u1" 2
    (by simp only [ascending]; decide)).1 (by omega)
  exact ⟨by rw [h.1]; decide, h.2⟩

/-- C7: the prompt builder (system prompt plus tone suffix) is a pure function
of the context snapshot and the tone: identical inputs yield byte-identical
output strings. -/
theorem promptBuilder_deterministic (c₁ c₂ : PromptContext) (t₁ t₂ : String)
    (hc : c₁ = c₂) (ht : t₁ = t₂) :
    buildSystemPrompt c₁ ++ getToneInstructions t₁ =
      buildSystemPrompt c₂ ++ getToneInstructions t₂ := by
  rw [hc, ht]

/-- Witness for C7 at a concrete snapshot and tone. -/
theorem promptBuilder_deterministic_witness :
    buildSystemPrompt ⟨some "Sam", some 30, none, ["pizza"], [], [], [], 0, 0⟩ ++
        getToneInstructions "sad" =
      buildSystemPrompt ⟨some "Sam", some 30, none, ["pizza"], [], [], [], 0, 0⟩ ++
        getToneInstructions "sad" :=
  promptBuilder_deterministic
    ⟨some "Sam", some 30, none, ["pizza"], [], [], [], 0, 0⟩
    ⟨some "Sam", some 30, none, ["pizza"], [], [], [], 0, 0⟩
    "sad" "sad" rfl rfl

/-- C5: tone detection always returns one of the four categories, decided
first-match-wins (sad before excited before angry before neutral), excited is
additionally triggered by two consecutive exclamation marks, and the message
with both sad and excited cues classifies as sad. -/
theorem detectTone_first_match (m : String) :
    (detectTone m = "sad" ∨ detectTone m = "excited" ∨ detectTone m = "angry" ∨
      detectTone m = "neutral") ∧
    (containsAny (jsToLower m) sadWords = true → detectTone m = "sad") ∧
    (containsAny (jsToLower m) sadWords = false →
      (containsAny (jsToLower m) excitedWords = true ∨ containsSub m.data ['!', '!'] = true) →
      detectTone m = "excited") ∧
    detectTone "I\x27m so sad but also excited!!" = "sad" := by
  refine ⟨?_, ?_, ?_, by decide⟩
  · by_cases h1 : containsAny (jsToLower m) sadWords
    · simp [detectTone, h1]
    · by_cases h2 : containsAny (jsToLower m) excitedWords || containsSub m.data ['!', '!']
      · simp only [detectTone]
        rw [if_neg (by simp [h1]), if_pos (by simpa using h2)]
        simp
      · by_cases h3 : containsAny (jsToLower m) angryWords
        · simp [detectTone, h1, h2, h3]
        · simp [detectTone, h1, h2, h3]
  · intro h1
    simp [detectTone, h1]
  · intro h1 h2
    simp only [detectTone]
    rw [if_neg (by simp [h1]), if_pos ?_]
    rcases h2 with h | h <;> simp [h]

/-- Witness for C5: a message with a sad keyword classifies as sad, and a
double exclamation without sad keywords classifies as excited. -/
theorem detectTone_first_match_witness :
    containsAny (jsToLower "feeling sad today") sadWords = true ∧
    detectTone "feeling sad today" = "sad" ∧
    containsAny (jsToLower "wow!!") sadWords = false ∧
    detectTone "wow!!" = "excited" :=
  ⟨by decide, (detectTone_first_match "feeling sad today").2.1 (by decide),
   by decide,
   (detectTone_first_match "wow!!").2.2.1 (by decide) (Or.inr (by decide))⟩

theorem applyName_keeps (m : List Char) (pr : Profile × Bool) :
    (applyName m pr).1.age = pr.1.age ∧ (applyName m pr).1.location = pr.1.location ∧
    (truthyStr pr.1.name = true → (applyName m pr).1.name = pr.1.name) := by
  unfold applyName
  cases hm : execName m with
  | none => exact ⟨rfl, rfl, fun _ => rfl⟩
  | some cap =>
    by_cases ht : truthyStr pr.1.name = true
    · simp [ht]
    · have ht2 : truthyStr pr.1.name = false := by simpa using ht
      simp [ht2]

theorem applyAge_keeps (m : List Char) (pr : Profile × Bool) :
    (applyAge m pr).1.name = pr.1.name ∧ (applyAge m pr).1.location = pr.1.location ∧
    (truthyNat pr.1.age = true → (applyAge m pr).1.age = pr.1.age) := by
  unfold applyAge
  cases hm : execAge m with
  | none => exact ⟨rfl, rfl, fun _ => rfl⟩
  | some cap =>
    by_cases ht : truthyNat pr.1.age = true
    · simp [ht]
    · have ht2 : truthyNat pr.1.age = false := by simpa using ht
      simp [ht2]

theorem applyLocation_keeps (m : List Char) (pr : Profile × Bool) :
    (applyLocation m pr).1.name = pr.1.name ∧ (applyLocation m pr).1.age = pr.1.age ∧
    (truthyStr pr.1.location = true → (applyLocation m pr).1.location = pr.1.location) := by
  unfold applyLocation
  cases hm : execLocation m with
  | none => exact ⟨rfl, rfl, fun _ => rfl⟩
  | some cap =>
    by_cases ht : truthyStr pr.1.location = true
    · simp [ht]
    · have ht2 : truthyStr pr.1.location = false := by simpa using ht
      simp [ht2]

theorem applyColor_keeps (m : List Char) (pr : Profile × Bool) :
    (applyColor m pr).1.name = pr.1.name ∧ (applyColor m pr).1.age = pr.1.age ∧
    (applyColor m pr).1.location = pr.1.location := by
  unfold applyColor
  cases hm : execColor m <;> simp

theorem applyHobby_keeps (m : List Char) (pr : Profile × Bool) :
    (applyHobby m pr).1.name = pr.1.name ∧ (applyHobby m pr).1.age = pr.1.age ∧
    (applyHobby m pr).1.location = pr.1.location := by
  unfold applyHobby
  cases hm : execHobby m with
  | none => exact ⟨rfl, rfl, rfl⟩
  | some cap =>
    dsimp only
    split <;> exact ⟨rfl, rfl, rfl⟩

/-- C1 (amended): extraction overwrites an identity field only when its current
value is JavaScript-falsy — null, the empty string for name/location, or 0 for
age. A truthy name, age, or location is never overwritten. Given `age=null`,
the message `I am 30 years old` sets age to 30, and a subsequent
`I am 40 years old` leaves it at 30. -/
theorem extract_first_write_wins (p : Profile) (m : String) :
    (truthyStr p.name = true → (extractInfo p m).1.name = p.name) ∧
    (truthyNat p.age = true → (extractInfo p m).1.age = p.age) ∧
    (truthyStr p.location = true → (extractInfo p m).1.location = p.location) ∧
    (extractInfo defaultProfile "I am 30 years old").1.age = some 30 ∧
    (extractInfo (extractInfo defaultProfile "I am 30 years old").1 "I am 40 years old").1.age =
      some 30 := by
  refine ⟨?_, ?_, ?_, by decide, by decide⟩
  · intro h
    simp only [extractInfo]
    rw [(applyHobby_keeps _ _).1, (applyColor_keeps _ _).1, (applyLocation_keeps _ _).1,
      (applyAge_keeps _ _).1]
    exact (applyName_keeps _ _).2.2 h
  · intro h
    simp only [extractInfo]
    rw [(applyHobby_keeps _ _).2.1, (applyColor_keeps _ _).2.1, (applyLocation_keeps _ _).2.1]
    have hn := (applyName_keeps m.data (p, false)).1
    rw [(applyAge_keeps _ _).2.2 (by rw [hn]; exact h), hn]
  · intro h
    simp only [extractInfo]
    rw [(applyHobby_keeps _ _).2.2, (applyColor_keeps _ _).2.2]
    have hn := (applyName_keeps m.data (p, false)).2.1
    have ha := (applyAge_keeps m.data (applyName m.data (p, false))).2.1
    rw [(applyLocation_keeps _ _).2.2 (by rw [ha, hn]; exact h), ha, hn]

/-- Counterexample to C1 as stated: a profile whose age is the non-null value 0
(reachable by extracting `I am 0 years old`) is overwritten by a later
`I am 40 years old`, because the guard tests JavaScript truthiness, not null. -/
theorem extract_overwrites_nonnull_zero_age :
    (extractInfo defaultProfile "I am 0 years old").1.age = some 0 ∧
    (extractInfo defaultProfile "I am 0 years old").1.age ≠ none ∧
    (extractInfo (extractInfo defaultProfile "I am 0 years old").1 "I am 40 years old").1.age =
      some 40 := by decide

/-- Witness for C1 on a concrete truthy profile: extraction of an age-bearing
message leaves an existing nonzero age unchanged. -/
theorem extract_first_write_wins_witness :
    truthyNat (some 30) = true ∧
    (extractInfo ⟨some "Alex", some 30, some "Pune", [], [], []⟩ "I am 40 years old").1.age =
      some 30 :=
  ⟨by decide,
   (extract_first_write_wins ⟨some "Alex", some 30, some "Pune", [], [], []⟩
      "I am 40 years old").2.1 (by decide)⟩

theorem getUser_conversations (st : Store) (uid : String) :
    (getUser st uid).2.conversations = st.conversations := by
  unfold getUser
  cases findUser st uid <;> rfl

theorem getUser_users_mem (st : Store) (uid : String) (u : UserRecord) (h : u ∈ st.users) :
    u ∈ (getUser st uid).2.users := by
  unfold getUser
  cases findUser st uid with
  | some v => exact h
  | none => exact List.mem_append_left _ h

/-- C2 (amended): a completion failure during Generate short-circuits to the
fixed error reply for the thrown message and performs no persistence: the
conversations collection is untouched and every pre-existing user record is
still present unchanged (the only store effect of the turn is the lazy
creation of a default profile during context loading). The reply is non-empty
and chosen by the source-order markers: API-key errors get the configuration
message, then quota/rate-limit the "give me a moment" message, then network
the "trouble connecting" message, else the neutral apology. -/
theorem chat_completion_failure (st : Store) (deps : ChatDeps) (uid msg e : String)
    (hl : deps.loadError = none) (hc : deps.completion = Except.error e) :
    chat st deps uid msg = (getErrorResponse e, (getUser st uid).2) ∧
    (chat st deps uid msg).2.conversations = st.conversations ∧
    (∀ u ∈ st.users, u ∈ (chat st deps uid msg).2.users) ∧
    getErrorResponse e ≠ "" ∧
    (containsStr e "API key" = true → getErrorResponse e = configMsg) ∧
    (containsStr e "API key" = false →
      (containsStr e "quota" = true ∨ containsStr e "rate limit" = true) →
      getErrorResponse e = momentMsg) ∧
    (containsStr e "API key" = false → containsStr e "quota" = false →
      containsStr e "rate limit" = false → containsStr e "network" = true →
      getErrorResponse e = connectMsg) ∧
    (containsStr e "API key" = false → containsStr e "quota" = false →
      containsStr e "rate limit" = false → containsStr e "network" = false →
      getErrorResponse e = genericMsg) := by
  have hmain : chat st deps uid msg = (getErrorResponse e, (getUser st uid).2) := by
    simp only [chat, hl, hc]
    rfl
  refine ⟨hmain, ?_, ?_, ?_, ?_, ?_, ?_, ?_⟩
  · rw [hmain]
    exact getUser_conversations st uid
  · intro u hu
    rw [hmain]
    exact getUser_users_mem st uid u hu
  · unfold getErrorResponse
    split
    · decide
    · split
      · decide
      · split
        · decide
        · decide
  · intro h1
    unfold getErrorResponse
    rw [if_pos h1]
  · intro h1 h2
    unfold getErrorResponse
    rw [if_neg (by simp [h1]), if_pos (by rcases h2 with h | h <;> simp [h])]
  · intro h1 h2 h3 h4
    unfold getErrorResponse
    rw [if_neg (by simp [h1]), if_neg (by simp [h2, h3]), if_pos h4]
  · intro h1 h2 h3 h4
    unfold getErrorResponse
    rw [if_neg (by simp [h1]), if_neg (by simp [h2, h3]), if_neg (by simp [h4])]

/-- Counterexample to C2 as stated: an API-key completion failure is neither a
rate-limit nor a network error, yet the turn returns the configuration
message, not the neutral apology the claim requires for the "otherwise"
category. -/
theorem chat_apikey_failure_not_neutral :
    (chat emptyStore ⟨none, Except.error "Invalid API key", none, none, false⟩ "u1" "hi").1 =
      configMsg ∧
    containsStr "Invalid API key" "quota" = false ∧
    containsStr "Invalid API key" "rate limit" = false ∧
    containsStr "Invalid API key" "network" = false ∧
    configMsg ≠ genericMsg := by
  exact ⟨by decide, by decide, by decide, by decide, by decide⟩

/-- Witness for C2: a concrete network failure returns the fixed connectivity
message and leaves the empty store without messages. -/
theorem chat_completion_failure_witness :
    chat emptyStore ⟨none, Except.error "network fail", none, none, false⟩ "u7" "hello" =
      (getErrorResponse "network fail", (getUser emptyStore "u7").2) ∧
    getErrorResponse "network fail" = connectMsg :=
  ⟨(chat_completion_failure emptyStore ⟨none, Except.error "network fail", none, none, false⟩
      "u7" "hello" "network fail" rfl rfl).1,
   (chat_completion_failure emptyStore ⟨none, Except.error "network fail", none, none, false⟩
      "u7" "hello" "network fail" rfl rfl).2.2.2.2.2.2.1
      (by decide) (by decide) (by decide) (by decide)⟩

/-- C3 (amended): when generation succeeds, a storage failure inside fact
extraction is swallowed and the caller still receives the generated reply
unchanged; but a storage failure while saving the user or the assistant
message falls through to the catch-all handler, which replaces the reply with
the corresponding apology message. -/
theorem chat_storage_failures (st : Store) (deps : ChatDeps) (uid msg reply : String)
    (hl : deps.loadError = none) (hc : deps.completion = Except.ok reply) :
    (deps.saveUserError = none → deps.saveAssistantError = none →
      (chat st deps uid msg).1 = reply) ∧
    (∀ e, deps.saveUserError = some e → (chat st deps uid msg).1 = getErrorResponse e) ∧
    (∀ e, deps.saveUserError = none → deps.saveAssistantError = some e →
      (chat st deps uid msg).1 = getErrorResponse e) := by
  refine ⟨?_, ?_, ?_⟩
  · intro h1 h2
    simp only [chat, hl, hc, h1, h2]
  · intro e h1
    simp only [chat, hl, hc, h1]
  · intro e h1 h2
    simp only [chat, hl, hc, h1, h2]

/-- Counterexample to C3 as stated: a storage failure while saving the user
message replaces the already-generated reply with the generic apology instead
of returning the reply. -/
theorem chat_persist_failure_replaces_reply :
    (chat emptyStore ⟨none, Except.ok "The generated reply", some "storage down", none, false⟩
      "u1" "hi").1 = genericMsg ∧
    (chat emptyStore ⟨none, Except.ok "The generated reply", some "storage down", none, false⟩
      "u1" "hi").1 ≠ "The generated reply" := by
  exact ⟨by decide, by decide⟩

/-- Witness for C3: a storage failure during extraction only still returns the
generated reply unchanged. -/
theorem chat_storage_failures_witness :
    (chat emptyStore ⟨none, Except.ok "All good!", none, none, true⟩ "u2" "hey").1 =
      "All good!" :=
  (chat_storage_failures emptyStore ⟨none, Except.ok "All good!", none, none, true⟩ "u2" "hey"
    "All good!" rfl rfl).1 rfl rfl

/-- C8: a malformed message (empty or whitespace-only after trimming, or longer
than 500 characters) is rejected with a 400 validation response before
anything else happens: the store is unchanged, and the response is independent
of both the store contents and the completion/storage outcomes, so no store
read or write and no model call can have influenced it. -/
theorem handler_rejects_invalid (st st2 : Store) (deps deps2 : ChatDeps) (uid m : String)
    (h : (jsTrimStr m).length = 0 ∨ 500 < m.length) :
    (handleChatRequest st deps uid m).2 = st ∧
    (handleChatRequest st deps uid m).1 = (handleChatRequest st2 deps2 uid m).1 ∧
    ∃ a b, (handleChatRequest st deps uid m).1 = ChatApiResult.badRequest a b := by
  by_cases h1 : (uid == "" || m == "") = true
  · have key : ∀ (s : Store) (d : ChatDeps), handleChatRequest s d uid m =
        (ChatApiResult.badRequest "Missing required fields"
          "Both userId and message are required", s) := by
      intro s d
      unfold handleChatRequest
      rw [if_pos h1]
    rw [key st deps, key st2 deps2]
    exact ⟨rfl, rfl, _, _, rfl⟩
  · by_cases h2 : ((jsTrimStr m).length == 0) = true
    · have key : ∀ (s : Store) (d : ChatDeps), handleChatRequest s d uid m =
          (ChatApiResult.badRequest "Invalid message"
            "Message must be a non-empty string", s) := by
        intro s d
        unfold handleChatRequest
        rw [if_neg h1, if_pos h2]
      rw [key st deps, key st2 deps2]
      exact ⟨rfl, rfl, _, _, rfl⟩
    · have h500 : 500 < m.length := by
        rcases h with htrim | hlen
        · exact absurd (by simp [htrim]) h2
        · exact hlen
      have key : ∀ (s : Store) (d : ChatDeps), handleChatRequest s d uid m =
          (ChatApiResult.badRequest "Message too long"
            "Message must be 500 characters or less", s) := by
        intro s d
        unfold handleChatRequest
        rw [if_neg h1, if_neg h2, if_pos (decide_eq_true h500)]
      rw [key st deps, key st2 deps2]
      exact ⟨rfl, rfl, _, _, rfl⟩

/-- Witness for C8: a whitespace-only message is rejected with a 400, leaves
the store untouched, and the response does not depend on the store or on the
completion outcome. -/
theorem handler_rejects_invalid_witness :
    ((jsTrimStr "   ").length = 0 ∨ 500 < ("   " : String).length) ∧
    (handleChatRequest emptyStore ⟨none, Except.ok "x", none, none, false⟩ "u1" "   ").2 =
      emptyStore ∧
    (handleChatRequest emptyStore ⟨none, Except.ok "x", none, none, false⟩ "u1" "   ").1 =
      (handleChatRequest ⟨[], [], 5⟩ ⟨none, Except.error "boom", some "a", some "b", true⟩
        "u1" "   ").1 ∧
    ∃ a b, (handleChatRequest emptyStore ⟨none, Except.ok "x", none, none, false⟩
      "u1" "   ").1 = ChatApiResult.badRequest a b :=
  have h := handler_rejects_invalid emptyStore ⟨[], [], 5⟩
    ⟨none, Except.ok "x", none, none, false⟩ ⟨none, Except.error "boom", some "a", some "b", true⟩
    "u1" "   " (Or.inl (by decide))
  ⟨Or.inl (by decide), h.1, h.2.1, h.2.2⟩

end STAN
